import Mathlib

/-!
Shallow embedding of the RSC sales dashboard (src/app.py) pipeline:
schema resolution, date normalization, filtering, grouped aggregation,
top-N ranking and KPI computation, together with theorems checking the
specification's claims against it.
-/

/-! ## String utilities

`df.columns.astype(str).str.strip()` (app.py line 50) trims whitespace
from both ends of each header.  We model strings through their character
lists so that everything reduces in the kernel. -/

/-- Whitespace test used by trimming (models str.strip). -/
def isWs (c : Char) : Bool := c == ' ' || c == '\t' || c == '\n' || c == '\r'

/-- Trim whitespace from both ends of a string (models pandas str.strip). -/
def trimStr (s : String) : String :=
  ⟨((s.data.dropWhile isWs).reverse.dropWhile isWs).reverse⟩

/-- Lower-case one ASCII character. -/
def lowerChar (c : Char) : Char :=
  if 65 ≤ c.toNat ∧ c.toNat ≤ 90 then Char.ofNat (c.toNat + 32) else c

/-- Lower-case a string; used only to state case-insensitivity claims. -/
def lowerStr (s : String) : String := ⟨s.data.map lowerChar⟩

/-- Lexicographic comparison of character lists by code point
(the order pandas uses when sorting string group keys). -/
def charListLe : List Char → List Char → Bool
  | [], _ => true
  | _ :: _, [] => false
  | a :: as, b :: bs =>
    if a.toNat < b.toNat then true
    else if b.toNat < a.toNat then false
    else charListLe as bs

/-- Lexicographic order on strings by code point. -/
def strLe (a b : String) : Bool := charListLe a.data b.data

/-! ## Date handling (app.py lines 60-63)

`pd.to_datetime(col, unit="D", origin="1899-12-30")` decodes a numeric
cell as a day offset from the spreadsheet epoch 1899-12-30 in the
proleptic Gregorian calendar.  `daysFromCivil`/`civilFromDays` are the
standard civil-calendar day-count conversions, with day 0 = 0000-03-01
so that all arithmetic stays in `Nat`. -/

/-- Day count of a Gregorian date (y, m, d), counted from 0000-03-01. -/
def daysFromCivil (y m d : Nat) : Nat :=
  let y' := if m ≤ 2 then y - 1 else y
  let era := y' / 400
  let yoe := y' % 400
  let mp := if 3 ≤ m then m - 3 else m + 9
  let doy := (153 * mp + 2) / 5 + (d - 1)
  let doe := yoe * 365 + yoe / 4 - yoe / 100 + doy
  era * 146097 + doe

/-- Gregorian date (y, m, d) of a day count from 0000-03-01. -/
def civilFromDays (z : Nat) : Nat × Nat × Nat :=
  let era := z / 146097
  let doe := z % 146097
  let yoe := (doe - doe / 1460 + doe / 36524 - doe / 146096) / 365
  let y' := yoe + era * 400
  let doy := doe - (365 * yoe + yoe / 4 - yoe / 100)
  let mp := (5 * doy + 2) / 153
  let d := doy - (153 * mp + 2) / 5 + 1
  let m := if mp < 10 then mp + 3 else mp - 9
  (if m ≤ 2 then y' + 1 else y', m, d)

/-- The spreadsheet date epoch 1899-12-30 as a civil day count
(origin used at app.py line 61). -/
def excelEpoch : Nat := daysFromCivil 1899 12 30

/-- Decode a numeric spreadsheet serial date: day offset from 1899-12-30
(models pd.to_datetime(col, unit="D", origin="1899-12-30")). -/
def serialToDate (n : Nat) : Nat × Nat × Nat := civilFromDays (excelEpoch + n)

/-! ## Data model

A raw row as loaded from the sheet: its date is the parsed calendar
date, `none` when parsing failed (NaT).  A `Record` is a row of the
working dataframe after date normalization, with the derived
Year / Month_No / Month_Name columns attached (app.py lines 66-68). -/

/-- One loaded row of the "RAW data" sheet, after date parsing.
`date = none` models NaT (an unparseable date cell). -/
structure RawRow where
  date : Option (Nat × Nat × Nat)
  status : String
  region : String
  city : String
  store : String
  name : String
  category : String
  modelName : String
  leadSource : String
  qty : Int
  value : ℚ
deriving DecidableEq

/-- One row of the working dataframe with derived calendar columns. -/
structure Record where
  status : String
  region : String
  city : String
  store : String
  name : String
  category : String
  modelName : String
  leadSource : String
  year : Nat
  monthNo : Nat
  monthName : String
  qty : Int
  value : ℚ
deriving DecidableEq

/-- Three-letter month abbreviation (dt.strftime of app.py line 68). -/
def monthAbbrev : Nat → String
  | 1 => "Jan" | 2 => "Feb" | 3 => "Mar" | 4 => "Apr"
  | 5 => "May" | 6 => "Jun" | 7 => "Jul" | 8 => "Aug"
  | 9 => "Sep" | 10 => "Oct" | 11 => "Nov" | 12 => "Dec"
  | _ => ""

/-- Attach the derived Year / Month_No / Month_Name columns to a row
whose date parsed to `ymd` (app.py lines 66-68). -/
def deriveRecord (row : RawRow) (ymd : Nat × Nat × Nat) : Record :=
  { status := row.status, region := row.region, city := row.city,
    store := row.store, name := row.name, category := row.category,
    modelName := row.modelName, leadSource := row.leadSource,
    year := ymd.1, monthNo := ymd.2.1, monthName := monthAbbrev ymd.2.1,
    qty := row.qty, value := row.value }

/-- Drop rows whose date failed to parse and derive calendar columns
(app.py lines 65-68: dropna(subset=[DATE_COL]) plus dt accessors). -/
def dropNaDerive (raw : List RawRow) : List Record :=
  raw.filterMap (fun row => row.date.map (deriveRecord row))

/-- The working dataframe: parsed rows restricted to the configured
inclusive year range (app.py line 69: df[df["Year"].between(2024, 2025)]). -/
def normalizeRows (raw : List RawRow) : List Record :=
  (dropNaDerive raw).filter (fun r => 2024 ≤ r.year && r.year ≤ 2025)

/-! ## Schema resolution (app.py lines 50-58)

The date column is resolved by scanning a fixed alias list against the
trimmed headers; the match is plain string equality (`c in df.columns`),
so it is exact on case.  If no alias matches, the app stops with the
message "Date column not found".  Every other column is accessed
directly by name; a missing one surfaces as a KeyError naming just that
column, at its first point of use. -/

/-- Accepted aliases for the date column (app.py line 53). -/
def possibleDateCols : List String :=
  ["Refer Date", "ReferDate", "Reference Date", "Ref Date", "Invoice Date", "Date"]

/-- Resolve the date column: first alias that occurs verbatim among the
trimmed headers (app.py line 54). -/
def resolveDateCol (headers : List String) : Option String :=
  possibleDateCols.find? (fun c => (headers.map trimStr).contains c)

/-- Columns the report accesses directly, in order of first access
(app.py lines 82, 87, 92, 99, 142, 176, 219, 261, 301, 324). -/
def requiredCols : List String :=
  ["City", "Storename", "Name", "Status", "Sales Quantity",
   "Product Category", "Model Name", "Source Of Lead"]

/-- Error surface of the column accesses: the date check of lines 56-58,
then a KeyError naming the first missing directly-accessed column. -/
def appColumnCheck (headers : List String) : Except String Unit :=
  match resolveDateCol headers with
  | none => Except.error "Date column not found"
  | some _ =>
    match requiredCols.find? (fun c => !((headers.map trimStr).contains c)) with
    | some c => Except.error c
    | none => Except.ok ()

/-- Modelled from the spec: the set of ALL logical fields that cannot be
resolved from the headers, as one consolidated list (the spec's
`MissingColumn` contract, which the claims compare the code against). -/
def missingFields (headers : List String) : List String :=
  (if (resolveDateCol headers).isSome then [] else ["Date"]) ++
    requiredCols.filter (fun c => !((headers.map trimStr).contains c))

/-! ## Filter engine (app.py lines 99-108) -/

/-- The fixed status predicate (app.py line 99). -/
def statusPassed (rs : List Record) : List Record :=
  rs.filter (fun r => r.status == "Passed")

/-- Optional year selection (app.py lines 101-102): an empty selection
is falsy in Python, so the filter is skipped. -/
def applyYearSel (sel : List Nat) (rs : List Record) : List Record :=
  if sel.isEmpty then rs else rs.filter (fun r => sel.contains r.year)

/-- Optional city selection (app.py lines 103-104). -/
def applyCitySel (sel : List String) (rs : List Record) : List Record :=
  if sel.isEmpty then rs else rs.filter (fun r => sel.contains r.city)

/-- Optional store selection (app.py lines 105-106). -/
def applyStoreSel (sel : List String) (rs : List Record) : List Record :=
  if sel.isEmpty then rs else rs.filter (fun r => sel.contains r.store)

/-- Optional name selection (app.py lines 107-108). -/
def applyNameSel (sel : List String) (rs : List Record) : List Record :=
  if sel.isEmpty then rs else rs.filter (fun r => sel.contains r.name)

/-- The full filter stage df_filtered (app.py lines 99-108). -/
def filterRecords (rs : List Record) (selYear : List Nat)
    (selCity selStore selName : List String) : List Record :=
  applyNameSel selName (applyStoreSel selStore (applyCitySel selCity
    (applyYearSel selYear (statusPassed rs))))

/-- Modelled from the spec: the pipeline with no year filter at all. -/
def filterNoYearDim (rs : List Record) (selCity selStore selName : List String) :
    List Record :=
  applyNameSel selName (applyStoreSel selStore (applyCitySel selCity
    (statusPassed rs)))

/-- Modelled from the spec: the pipeline with no city filter at all. -/
def filterNoCityDim (rs : List Record) (selYear : List Nat)
    (selStore selName : List String) : List Record :=
  applyNameSel selName (applyStoreSel selStore
    (applyYearSel selYear (statusPassed rs)))

/-- Modelled from the spec: the pipeline with no store filter at all. -/
def filterNoStoreDim (rs : List Record) (selYear : List Nat)
    (selCity selName : List String) : List Record :=
  applyNameSel selName (applyCitySel selCity
    (applyYearSel selYear (statusPassed rs)))

/-- Modelled from the spec: the pipeline with no name filter at all. -/
def filterNoNameDim (rs : List Record) (selYear : List Nat)
    (selCity selStore : List String) : List Record :=
  applyStoreSel selStore (applyCitySel selCity
    (applyYearSel selYear (statusPassed rs)))


/-! ## Aggregation engine (app.py lines 142, 174-179, 218-221, 299-305)

`df.groupby(k, as_index=False)[m].sum()` groups the rows by key with the
group keys sorted ascending (pandas groupby sorts by default), carrying
the per-group sum of the measure.  `sort_values(m, ascending=False)` is
modelled as a stable sort on the measure (ties keep the grouped order);
`head(n)` is `take n`. -/

/-- Sum of a measure over a record list (a pandas Series .sum()). -/
def sumOver (m : Record → Int) (rs : List Record) : Int := (rs.map m).sum

/-- Total Quantity KPI (app.py line 142). -/
def totalQty (rs : List Record) : Int := sumOver (fun r => r.qty) rs

/-- One aggregate row per given group key, carrying the per-group sum of
the measure over the records having that key. -/
def groupSums {κ : Type} [DecidableEq κ] (key : Record → κ) (m : Record → Int)
    (keys : List κ) (rs : List Record) : List (κ × Int) :=
  keys.map (fun k => (k, sumOver m (rs.filter (fun r => decide (key r = k)))))

/-- groupby over a string column: distinct keys sorted ascending, each
with the per-group sum of the measure. -/
def groupBySum (key : Record → String) (m : Record → Int) (rs : List Record) :
    List (String × Int) :=
  groupSums key m
    (List.insertionSort (fun a b => strLe a b = true) (rs.map key).dedup) rs

/-- Descending comparison on the measure component of an aggregate row
(sort_values(measure, ascending=False)). -/
def measDesc (a b : String × Int) : Prop := b.2 ≤ a.2

instance : DecidableRel measDesc := fun a b => Int.decLe b.2 a.2

/-- Top-N view: group by one attribute, sort descending on the measure,
take the first n rows (app.py lines 218-221, 260-263, 278-281, 299-305).
The order of rows with equal measures is implementation-defined in the
program (sort_values' default quicksort carries no stability guarantee);
`insertionSort` here is one concrete determinization of it, and the
theorems about `topN` assert only properties that hold for every
descending sort, never a particular tie order. -/
def topN (n : Nat) (key : Record → String) (m : Record → Int)
    (rs : List Record) : List (String × Int) :=
  (List.insertionSort measDesc (groupBySum key m rs)).take n

/-- Top 5 product categories by quantity (app.py lines 218-221). -/
def catQty (rs : List Record) : List (String × Int) :=
  topN 5 (fun r => r.category) (fun r => r.qty) rs

/-- Top 10 sellers leaderboard (app.py lines 299-305). -/
def leaderboard (rs : List Record) : List (String × Int) :=
  topN 10 (fun r => r.name) (fun r => r.qty) rs

/-- Lexicographic order on (Month_No, Month_Name) group keys. -/
def monthPairLe (a b : Nat × String) : Bool :=
  if a.1 < b.1 then true else if b.1 < a.1 then false else strLe a.2 b.2

/-- Month-wise quantity trend: groupby(["Month_No", "Month_Name"]).sum()
then sort_values("Month_No") (app.py lines 174-179). -/
def monthQty (rs : List Record) : List ((Nat × String) × Int) :=
  List.insertionSort (fun a b => a.1.1 ≤ b.1.1)
    (groupSums (fun r => (r.monthNo, r.monthName)) (fun r => r.qty)
      (List.insertionSort (fun a b => monthPairLe a b = true)
        (rs.map (fun r => (r.monthNo, r.monthName))).dedup) rs)

/-- Modelled from the spec: distinct keys in original encounter order
(what a stable, non-pre-sorted grouping would produce). -/
def encounterKeys (l : List String) : List String :=
  l.foldl (fun acc a => if a ∈ acc then acc else acc ++ [a]) []

/-- Modelled from the spec: top-N with groups in encounter order and a
stable descending sort, so ties are broken by original encounter order
(the tie-break the spec asserts). -/
def topNEncounter (n : Nat) (key : Record → String) (m : Record → Int)
    (rs : List Record) : List (String × Int) :=
  (List.insertionSort measDesc
    (groupSums key m (encounterKeys (rs.map key)) rs)).take n

/-! ## KPI cards (app.py lines 142-151)

`hasValue` models the `"Sales Value" in df.columns` test: the Sales
Value column is optional, and when absent both value sums default to 0. -/

/-- Total Sales Value KPI (app.py line 143). -/
def totalValue (hasValue : Bool) (rs : List Record) : ℚ :=
  if hasValue then (rs.map (fun r => r.value)).sum else 0

/-- Total Orders KPI (app.py line 144). -/
def totalOrders (rs : List Record) : Nat := rs.length

/-- Average order value with its division guard (app.py line 145). -/
def avgOrderValue (hasValue : Bool) (rs : List Record) : ℚ :=
  if 0 < totalOrders rs then totalValue hasValue rs / (totalOrders rs : ℚ) else 0

/-- Maximum Year of the filtered set (app.py line 147); the app has
already stopped when the filtered set is empty, so the 0 default of the
empty case is unreachable. -/
def currentYear (rs : List Record) : Nat :=
  match rs.map (fun r => r.year) with
  | [] => 0
  | y :: ys => ys.foldl max y

/-- Prior-year baseline rows, taken from the working dataframe df, not
from df_filtered (app.py line 148). -/
def prevYearData (working : List Record) (cy : Nat) : List Record :=
  working.filter (fun r => r.year == cy - 1 && r.status == "Passed")

/-- Prior-year Sales Value baseline (app.py line 149). -/
def prevValue (hasValue : Bool) (working : List Record) (cy : Nat) : ℚ :=
  if hasValue then ((prevYearData working cy).map (fun r => r.value)).sum else 0

/-- Year-over-year growth with its division guard (app.py line 151). -/
def yoyGrowth (hasValue : Bool) (rs working : List Record) (cy : Nat) : ℚ :=
  if 0 < prevValue hasValue working cy then
    (totalValue hasValue rs - prevValue hasValue working cy)
      / prevValue hasValue working cy * 100
  else 0

/-- The prior-year baseline as the full pipeline computes it: working
set from the raw rows, current year from the filtered set
(app.py lines 147-149). -/
def kpiPrevValue (hasValue : Bool) (raw : List RawRow) (selYear : List Nat)
    (selCity selStore selName : List String) : ℚ :=
  prevValue hasValue (normalizeRows raw)
    (currentYear (filterRecords (normalizeRows raw) selYear selCity selStore selName))

/-- Modelled from the spec: the baseline as the claim words it, summed
over the full LOADED dataset restricted only to Status and Year. -/
def loadedPrevValue (raw : List RawRow) (cy : Nat) : ℚ :=
  ((raw.filter (fun row => row.status == "Passed" &&
      (match row.date with
       | some ymd => ymd.1 == cy - 1
       | none => false))).map (fun row => row.value)).sum

/-! ## Concrete fixtures used by scenario conjuncts and witnesses -/

/-- A default record, overridden field-wise by the fixtures. -/
def baseRec : Record :=
  { status := "", region := "", city := "", store := "", name := "",
    category := "", modelName := "", leadSource := "", year := 2024,
    monthNo := 1, monthName := "Jan", qty := 0, value := 0 }

/-- The three-record scenario of the filter claim. -/
def scenarioRecords : List Record :=
  [{ baseRec with status := "Passed", region := "North", qty := 10 },
   { baseRec with status := "Failed", region := "North", qty := 99 },
   { baseRec with status := "Passed", region := "South", qty := 5 }]


/-! ## Filter-engine lemmas -/

theorem mem_statusPassed {r : Record} {rs : List Record} :
    r ∈ statusPassed rs ↔ r ∈ rs ∧ r.status = "Passed" := by
  simp [statusPassed, List.mem_filter]

theorem mem_applyYearSel {r : Record} {sel : List Nat} {rs : List Record} :
    r ∈ applyYearSel sel rs ↔ r ∈ rs ∧ (sel ≠ [] → r.year ∈ sel) := by
  cases sel with
  | nil => simp [applyYearSel]
  | cons a l => simp [applyYearSel, List.mem_filter]

theorem mem_applyCitySel {r : Record} {sel : List String} {rs : List Record} :
    r ∈ applyCitySel sel rs ↔ r ∈ rs ∧ (sel ≠ [] → r.city ∈ sel) := by
  cases sel with
  | nil => simp [applyCitySel]
  | cons a l => simp [applyCitySel, List.mem_filter]

theorem mem_applyStoreSel {r : Record} {sel : List String} {rs : List Record} :
    r ∈ applyStoreSel sel rs ↔ r ∈ rs ∧ (sel ≠ [] → r.store ∈ sel) := by
  cases sel with
  | nil => simp [applyStoreSel]
  | cons a l => simp [applyStoreSel, List.mem_filter]

theorem mem_applyNameSel {r : Record} {sel : List String} {rs : List Record} :
    r ∈ applyNameSel sel rs ↔ r ∈ rs ∧ (sel ≠ [] → r.name ∈ sel) := by
  cases sel with
  | nil => simp [applyNameSel]
  | cons a l => simp [applyNameSel, List.mem_filter]

/-- C1: the filter stage always applies the fixed status predicate and
composes the optional selections by logical AND: a record is in the
filtered set iff its Status is "Passed" and it satisfies every non-empty
year/city/store/name selection; on the three-record scenario with only
the status filter active, the filtered set has 2 records and quantity
sum 15. -/
theorem C1_filter_conjunction_and_scenario :
    (∀ (rs : List Record) (sy : List Nat) (sc ss sn : List String) (r : Record),
      r ∈ filterRecords rs sy sc ss sn ↔
        r ∈ rs ∧ r.status = "Passed" ∧ (sy ≠ [] → r.year ∈ sy) ∧
        (sc ≠ [] → r.city ∈ sc) ∧ (ss ≠ [] → r.store ∈ ss) ∧
        (sn ≠ [] → r.name ∈ sn)) ∧
    (filterRecords scenarioRecords [] [] [] []).length = 2 ∧
    totalQty (filterRecords scenarioRecords [] [] [] []) = 15 := by
  refine ⟨?_, by decide, by decide⟩
  intro rs sy sc ss sn r
  simp only [filterRecords, mem_applyNameSel, mem_applyStoreSel,
    mem_applyCitySel, mem_applyYearSel, mem_statusPassed]
  tauto

/-- C3: an empty selection on any single dimension is pass-through: the
pipeline with an empty selection yields exactly the filtered set of the
pipeline with no filter on that dimension at all. -/
theorem C3_empty_selection_passthrough :
    ∀ (rs : List Record) (sy : List Nat) (sc ss sn : List String),
      filterRecords rs [] sc ss sn = filterNoYearDim rs sc ss sn ∧
      filterRecords rs sy [] ss sn = filterNoCityDim rs sy ss sn ∧
      filterRecords rs sy sc [] sn = filterNoStoreDim rs sy sc sn ∧
      filterRecords rs sy sc ss [] = filterNoNameDim rs sy sc ss :=
  fun _ _ _ _ _ => ⟨rfl, rfl, rfl, rfl⟩

/-- C4: a numeric date cell is decoded as a day offset from the epoch
1899-12-30; in particular serial 45292 decodes to 2024-01-01. -/
theorem C4_serial_date_decoding :
    (∀ n : Nat, serialToDate n = civilFromDays (daysFromCivil 1899 12 30 + n)) ∧
    serialToDate 0 = (1899, 12, 30) ∧
    serialToDate 1 = (1899, 12, 31) ∧
    serialToDate 45292 = (2024, 1, 1) :=
  ⟨fun _ => rfl, by decide, by decide, by decide⟩

/-- C6: every record of the working set after date normalization has a
Year in the configured inclusive range 2024-2025. -/
theorem C6_year_range_retention :
    ∀ (raw : List RawRow) (r : Record),
      r ∈ normalizeRows raw → 2024 ≤ r.year ∧ r.year ≤ 2025 := by
  intro raw r hr
  simp only [normalizeRows, List.mem_filter, Bool.and_eq_true, decide_eq_true_eq] at hr
  exact hr.2

/-- A raw row whose date lies inside the retained year range. -/
def rawSample : RawRow :=
  { date := some (2024, 1, 1), status := "Passed", region := "North",
    city := "Delhi", store := "S1", name := "N1", category := "Printer",
    modelName := "M1", leadSource := "Web", qty := 1, value := 0 }

/-- C6 witness: the sample record is in the working set and the theorem
yields its year bounds. -/
theorem C6_year_range_retention_witness :
    deriveRecord rawSample (2024, 1, 1) ∈ normalizeRows [rawSample] ∧
    2024 ≤ (deriveRecord rawSample (2024, 1, 1)).year ∧
    (deriveRecord rawSample (2024, 1, 1)).year ≤ 2025 :=
  ⟨by decide,
   C6_year_range_retention [rawSample] (deriveRecord rawSample (2024, 1, 1)) (by decide)⟩

/-! ## Rollup conservation -/

theorem sumOver_filter_split (p : Record → Bool) (m : Record → Int)
    (rs : List Record) :
    sumOver m rs = sumOver m (rs.filter p) + sumOver m (rs.filter (fun r => !(p r))) := by
  induction rs with
  | nil => simp [sumOver]
  | cons a l ih =>
    cases h : p a <;> simp [sumOver, List.filter_cons, h] at ih ⊢ <;> omega

theorem filter_key_of_ne {κ : Type} [DecidableEq κ] (key : Record → κ)
    {k k' : κ} (h : k' ≠ k) (rs : List Record) :
    (rs.filter (fun r => !(decide (key r = k)))).filter (fun r => decide (key r = k')) =
      rs.filter (fun r => decide (key r = k')) := by
  induction rs with
  | nil => rfl
  | cons a l ih =>
    by_cases h1 : key a = k'
    · have h2 : key a ≠ k := by rw [h1]; exact h
      simp [List.filter_cons, h1, h2, h, Ne.symm h, ih]
    · by_cases h2 : key a = k <;> simp [List.filter_cons, h1, h2, h, Ne.symm h, ih]

theorem groupSums_snd_sum {κ : Type} [DecidableEq κ] (key : Record → κ)
    (m : Record → Int) :
    ∀ (keys : List κ) (rs : List Record), keys.Nodup →
      (∀ r ∈ rs, key r ∈ keys) →
      ((groupSums key m keys rs).map Prod.snd).sum = sumOver m rs := by
  intro keys
  induction keys with
  | nil =>
    intro rs _ hcov
    have hrs : rs = [] := by
      cases rs with
      | nil => rfl
      | cons a l => exact absurd (hcov a (List.mem_cons_self a l)) (List.not_mem_nil _)
    subst hrs
    simp [groupSums, sumOver]
  | cons k ks ih =>
    intro rs hnd hcov
    have hk : k ∉ ks := (List.nodup_cons.mp hnd).1
    have hnd' : ks.Nodup := (List.nodup_cons.mp hnd).2
    have hsplit := sumOver_filter_split (fun r => decide (key r = k)) m rs
    have hmap : groupSums key m ks rs =
        groupSums key m ks (rs.filter (fun r => !(decide (key r = k)))) := by
      unfold groupSums
      apply List.map_congr_left
      intro k' hk'
      have hne : k' ≠ k := fun he => hk (he ▸ hk')
      rw [filter_key_of_ne key hne]
    have hcov' : ∀ r ∈ rs.filter (fun r => !(decide (key r = k))), key r ∈ ks := by
      intro r hr
      rw [List.mem_filter] at hr
      have h1 : key r ∈ k :: ks := hcov r hr.1
      have h2 : key r ≠ k := by
        have := hr.2
        simp only [Bool.not_eq_eq_eq_not, Bool.not_true, decide_eq_false_iff_not] at this
        exact this
      rcases List.mem_cons.mp h1 with h | h
      · exact absurd h h2
      · exact h
    have ihx := ih (rs.filter (fun r => !(decide (key r = k)))) hnd' hcov'
    have hcons : ((groupSums key m (k :: ks) rs).map Prod.snd).sum =
        sumOver m (rs.filter (fun r => decide (key r = k))) +
        ((groupSums key m ks rs).map Prod.snd).sum := by
      simp [groupSums]
    rw [hcons, hmap, ihx]
    omega

/-- C2: rollup conservation: for every grouping and measure, the sum of
the grouped per-key sums equals the measure summed directly over all
filtered records; in particular the month-wise quantity rows sum to the
Total Quantity KPI. -/
theorem C2_rollup_conservation :
    (∀ (key : Record → String) (m : Record → Int) (rs : List Record),
      ((groupBySum key m rs).map Prod.snd).sum = sumOver m rs) ∧
    (∀ rs : List Record, ((monthQty rs).map Prod.snd).sum = totalQty rs) := by
  constructor
  · intro key m rs
    apply groupSums_snd_sum
    · exact ((List.perm_insertionSort _ _).nodup_iff).mpr (List.nodup_dedup _)
    · intro r hr
      exact (List.perm_insertionSort _ _).mem_iff.mpr
        (List.mem_dedup.mpr (List.mem_map_of_mem _ hr))
  · intro rs
    have h1 := List.perm_insertionSort
      (fun a b : (Nat × String) × Int => a.1.1 ≤ b.1.1)
      (groupSums (fun r => (r.monthNo, r.monthName)) (fun r => r.qty)
        (List.insertionSort (fun a b => monthPairLe a b = true)
          (rs.map (fun r => (r.monthNo, r.monthName))).dedup) rs)
    rw [monthQty, List.Perm.sum_eq (List.Perm.map Prod.snd h1)]
    apply groupSums_snd_sum
    · exact ((List.perm_insertionSort _ _).nodup_iff).mpr (List.nodup_dedup _)
    · intro r hr
      exact (List.perm_insertionSort _ _).mem_iff.mpr
        (List.mem_dedup.mpr (List.mem_map_of_mem _ hr))

/-! ## Order lemmas for the measure sort -/

instance : IsTotal (String × Int) measDesc := ⟨fun a b => le_total b.2 a.2⟩

instance : IsTrans (String × Int) measDesc := ⟨fun _ _ _ hab hbc => le_trans hbc hab⟩

/-! ## Structure of grouped tables and top-N views -/

theorem groupSums_map_fst {κ : Type} [DecidableEq κ] (key : Record → κ)
    (m : Record → Int) (keys : List κ) (rs : List Record) :
    (groupSums key m keys rs).map Prod.fst = keys := by
  induction keys with
  | nil => rfl
  | cons k ks ih => simpa [groupSums, List.map_cons] using ih

theorem groupBySum_fst_nodup (key : Record → String) (m : Record → Int)
    (rs : List Record) : ((groupBySum key m rs).map Prod.fst).Nodup := by
  rw [groupBySum, groupSums_map_fst]
  exact ((List.perm_insertionSort _ _).nodup_iff).mpr (List.nodup_dedup _)

theorem groupBySum_length (key : Record → String) (m : Record → Int)
    (rs : List Record) : (groupBySum key m rs).length = (rs.map key).dedup.length := by
  simp only [groupBySum, groupSums, List.length_map]
  exact (List.perm_insertionSort _ _).length_eq

/-- Two sellers with tied quantities, encountered in the order B then A. -/
def tieRecords : List Record :=
  [{ baseRec with status := "Passed", name := "B", qty := 5 },
   { baseRec with status := "Passed", name := "A", qty := 5 }]

/-- C5 counterexample: ties are NOT broken by original encounter order.
On two tied sellers encountered as B then A, the leaderboard returns A
first (grouping pre-sorts keys ascending), while the claimed
encounter-order tie-break would return B first. -/
theorem C5_tie_break_counterexample :
    leaderboard tieRecords = [("A", 5), ("B", 5)] ∧
    topNEncounter 10 (fun r => r.name) (fun r => r.qty) tieRecords =
      [("B", 5), ("A", 5)] ∧
    leaderboard tieRecords ≠
      topNEncounter 10 (fun r => r.name) (fun r => r.qty) tieRecords :=
  ⟨by decide, by decide, by decide⟩

/-- C5 amended: top-N reduces the groups by one attribute, sorts them
in descending order on the chosen measure and returns the first N rows;
the relative order of rows with equal measures is implementation-defined
(in particular NOT original encounter order, per the counterexample);
if fewer than N distinct groups exist, all of them are returned (a
permutation of the full grouped table), fully sorted, with no duplicate
keys and no padding, every returned row being a real grouped row.  Every
conjunct holds for any descending sort, stable or not. -/
theorem C5_topN_amended :
    ∀ (n : Nat) (key : Record → String) (m : Record → Int) (rs : List Record),
      List.Sorted measDesc (topN n key m rs) ∧
      (topN n key m rs).length = min n (rs.map key).dedup.length ∧
      ((topN n key m rs).map Prod.fst).Nodup ∧
      (∀ p ∈ topN n key m rs, p ∈ groupBySum key m rs) ∧
      ((rs.map key).dedup.length ≤ n →
        (topN n key m rs).Perm (groupBySum key m rs)) := by
  intro n key m rs
  refine ⟨?_, ?_, ?_, ?_, ?_⟩
  · exact List.Pairwise.sublist (List.take_sublist n _)
      (List.sorted_insertionSort measDesc (groupBySum key m rs))
  · rw [topN, List.length_take, (List.perm_insertionSort measDesc _).length_eq,
      groupBySum_length]
  · rw [topN, List.map_take]
    apply List.Sublist.nodup (List.take_sublist n _)
    exact ((List.perm_insertionSort measDesc _).map Prod.fst).nodup_iff.mpr
      (groupBySum_fst_nodup key m rs)
  · intro p hp
    have h1 : p ∈ List.insertionSort measDesc (groupBySum key m rs) :=
      (List.take_sublist n _).subset hp
    exact (List.perm_insertionSort measDesc _).mem_iff.mp h1
  · intro hle
    have hlen : (List.insertionSort measDesc (groupBySum key m rs)).length ≤ n := by
      rw [(List.perm_insertionSort measDesc _).length_eq, groupBySum_length]
      exact hle
    rw [topN, List.take_of_length_le hlen]
    exact List.perm_insertionSort measDesc _

/-- C5 amended witness: on the two-seller fixture (2 distinct groups,
N = 10), the theorem yields the leaderboard as a permutation of the
full grouped table. -/
theorem C5_topN_amended_witness :
    ((tieRecords.map (fun r => r.name)).dedup.length ≤ 10 →
      (topN 10 (fun r => r.name) (fun r => r.qty) tieRecords).Perm
        (groupBySum (fun r => r.name) (fun r => r.qty) tieRecords)) ∧
    (topN 10 (fun r => r.name) (fun r => r.qty) tieRecords).Perm
      (groupBySum (fun r => r.name) (fun r => r.qty) tieRecords) :=
  have h := (C5_topN_amended 10 (fun r => r.name) (fun r => r.qty) tieRecords).2.2.2.2
  ⟨h, h (by decide)⟩

/-! ## Schema-resolution claims -/

/-- C7 counterexample: header matching is NOT case-insensitive.  The
header " REFER DATE " trims to a string that differs from the accepted
alias "Refer Date" only in letter case, yet the date column fails to
resolve. -/
theorem C7_case_sensitivity_counterexample :
    "Refer Date" ∈ possibleDateCols ∧
    lowerStr (trimStr " REFER DATE ") = lowerStr (trimStr "Refer Date") ∧
    trimStr " REFER DATE " ≠ "Refer Date" ∧
    resolveDateCol [" REFER DATE "] = none :=
  ⟨by decide, by decide, by decide, by decide⟩

/-- C7 amended: headers are trimmed and then matched CASE-SENSITIVELY:
the date column resolves iff some alias occurs verbatim among the
trimmed headers, and a resolved name is such an alias. -/
theorem C7_resolution_amended :
    ∀ (headers : List String),
      ((resolveDateCol headers).isSome ↔
        ∃ c ∈ possibleDateCols, c ∈ headers.map trimStr) ∧
      (∀ c, resolveDateCol headers = some c →
        c ∈ possibleDateCols ∧ c ∈ headers.map trimStr) := by
  intro headers
  constructor
  · rw [resolveDateCol, List.find?_isSome]
    constructor
    · rintro ⟨c, hc, hp⟩
      exact ⟨c, hc, by simpa using hp⟩
    · rintro ⟨c, hc, hm⟩
      exact ⟨c, hc, by simpa using hm⟩
  · intro c hc
    rw [resolveDateCol] at hc
    refine ⟨List.mem_of_find?_eq_some hc, ?_⟩
    have h2 := List.find?_some hc
    simpa using h2

/-- A header set missing both the City and the Name columns. -/
def hdrsMissingTwo : List String :=
  ["Refer Date", "Storename", "Status", "Sales Quantity",
   "Product Category", "Model Name", "Source Of Lead"]

/-- C8 counterexample: with both City and Name missing, the report
halts with an error naming only City; the missing Name column is never
mentioned, so missing fields are not surfaced in one consolidated
message. -/
theorem C8_missing_columns_counterexample :
    appColumnCheck hdrsMissingTwo = Except.error "City" ∧
    missingFields hdrsMissingTwo = ["City", "Name"] ∧
    "Name" ∈ missingFields hdrsMissingTwo ∧
    appColumnCheck hdrsMissingTwo ≠ Except.error "Name" := by
  have h1 : appColumnCheck hdrsMissingTwo = Except.error "City" := rfl
  refine ⟨h1, by decide, by decide, ?_⟩
  rw [h1]
  intro h
  exact (by decide : ¬ ("City" : String) = "Name") (Except.error.inj h)

/-- C8 amended: generation halts on the FIRST unresolvable field: it
succeeds iff no required field is missing, and on failure the single
surfaced error is either the date message or names one (missing)
column. -/
theorem C8_missing_columns_amended :
    ∀ (headers : List String),
      (appColumnCheck headers = Except.ok () ↔ missingFields headers = []) ∧
      (∀ e, appColumnCheck headers = Except.error e →
        e = "Date column not found" ∨ e ∈ missingFields headers) := by
  intro headers
  cases hdc : resolveDateCol headers with
  | none =>
    constructor
    · simp [appColumnCheck, missingFields, hdc]
    · intro e he
      simp only [appColumnCheck, hdc, Except.error.injEq] at he
      left
      exact he.symm
  | some c0 =>
    cases hfind : requiredCols.find? (fun c => !((headers.map trimStr).contains c)) with
    | some c =>
      have hc1 := List.find?_some hfind
      have hc2 := List.mem_of_find?_eq_some hfind
      have hcmem : c ∈ missingFields headers := by
        rw [missingFields, hdc]
        simp only [Option.isSome_some, if_pos, List.nil_append]
        exact List.mem_filter.mpr ⟨hc2, hc1⟩
      constructor
      · constructor
        · intro h
          simp only [appColumnCheck, hdc, hfind] at h
          exact Except.noConfusion h
        · intro h
          rw [h] at hcmem
          exact absurd hcmem (List.not_mem_nil c)
      · intro e he
        simp only [appColumnCheck, hdc, hfind, Except.error.injEq] at he
        right
        exact he ▸ hcmem
    | none =>
      have hfilter : requiredCols.filter (fun c => !((headers.map trimStr).contains c)) = [] := by
        rw [List.filter_eq_nil_iff]
        intro a ha
        have := List.find?_eq_none.mp hfind a ha
        simpa using this
      have hmf : missingFields headers = [] := by
        rw [missingFields, hdc]
        exact hfilter
      have hok : appColumnCheck headers = Except.ok () := by
        simp only [appColumnCheck, hdc, hfind]
      constructor
      · exact ⟨fun _ => hmf, fun _ => hok⟩
      · intro e he
        rw [hok] at he
        exact Except.noConfusion he

/-! ## KPI baseline claims -/

/-- A loaded Passed row dated 2023, outside the retained year range. -/
def rawRow2023 : RawRow :=
  { date := some (2023, 5, 1), status := "Passed", region := "North",
    city := "Delhi", store := "S1", name := "N1", category := "Printer",
    modelName := "M1", leadSource := "Web", qty := 1, value := 100 }

/-- A loaded Passed row dated 2024, inside the retained year range. -/
def rawRow2024 : RawRow :=
  { date := some (2024, 3, 2), status := "Passed", region := "North",
    city := "Delhi", store := "S1", name := "N1", category := "Printer",
    modelName := "M1", leadSource := "Web", qty := 2, value := 50 }

/-- Loaded dataset with a prior-year Passed row that the year-range
retention drops before the baseline is computed. -/
def rawBaseline : List RawRow := [rawRow2023, rawRow2024]

/-- C9 counterexample: the YoY baseline is NOT computed over the full
loaded dataset.  With current year 2024, the loaded dataset contains a
2023 Passed row of value 100, but the code's baseline is 0 because the
2023 row was dropped by the 2024-2025 retention before line 148 runs. -/
theorem C9_baseline_counterexample :
    currentYear (filterRecords (normalizeRows rawBaseline) [] [] [] []) = 2024 ∧
    kpiPrevValue true rawBaseline [] [] [] [] = 0 ∧
    loadedPrevValue rawBaseline 2024 = 100 ∧
    kpiPrevValue true rawBaseline [] [] [] [] ≠ loadedPrevValue rawBaseline 2024 := by
  have h2 : kpiPrevValue true rawBaseline [] [] [] [] = 0 := by decide
  have h3 : loadedPrevValue rawBaseline 2024 = 100 := by
    norm_num [loadedPrevValue, rawBaseline, rawRow2023, rawRow2024, List.filter_cons]
  refine ⟨by decide, h2, h3, ?_⟩
  rw [h2, h3]
  norm_num

/-- C9 amended: the baseline sums Sales Value over the year-normalized
working set (not the raw loaded data) restricted to Status "Passed" and
Year = current_year - 1; given an equal resolved current year, the
sidebar selections do not affect it. -/
theorem C9_baseline_amended :
    ∀ (hv : Bool) (raw : List RawRow) (sy1 sy2 : List Nat)
      (sc1 ss1 sn1 sc2 ss2 sn2 : List String),
      (currentYear (filterRecords (normalizeRows raw) sy1 sc1 ss1 sn1) =
          currentYear (filterRecords (normalizeRows raw) sy2 sc2 ss2 sn2) →
        kpiPrevValue hv raw sy1 sc1 ss1 sn1 = kpiPrevValue hv raw sy2 sc2 ss2 sn2) ∧
      (∀ (working : List Record) (cy : Nat) (r : Record),
        r ∈ prevYearData working cy ↔
          r ∈ working ∧ r.year = cy - 1 ∧ r.status = "Passed") := by
  intro hv raw sy1 sy2 sc1 ss1 sn1 sc2 ss2 sn2
  constructor
  · intro h
    rw [kpiPrevValue, kpiPrevValue, h]
  · intro working cy r
    simp [prevYearData, List.mem_filter, and_assoc]

/-- C9 amended witness: on the fixture dataset, two different selection
configurations with the same resolved current year give the same
baseline. -/
theorem C9_baseline_amended_witness :
    (currentYear (filterRecords (normalizeRows rawBaseline) [] ["Delhi"] [] []) =
        currentYear (filterRecords (normalizeRows rawBaseline) [2024] [] [] []) →
      kpiPrevValue true rawBaseline [] ["Delhi"] [] [] =
        kpiPrevValue true rawBaseline [2024] [] [] []) ∧
    (deriveRecord rawRow2024 (2024, 3, 2) ∈
        prevYearData (normalizeRows rawBaseline) 2025 ↔
      deriveRecord rawRow2024 (2024, 3, 2) ∈ normalizeRows rawBaseline ∧
        (deriveRecord rawRow2024 (2024, 3, 2)).year = 2025 - 1 ∧
        (deriveRecord rawRow2024 (2024, 3, 2)).status = "Passed") :=
  ⟨(C9_baseline_amended true rawBaseline [] [2024] ["Delhi"] [] [] [] [] []).1,
   (C9_baseline_amended true rawBaseline [] [2024] ["Delhi"] [] [] [] [] []).2
     (normalizeRows rawBaseline) 2025 (deriveRecord rawRow2024 (2024, 3, 2))⟩

/-- C10: when the loaded table has no Sales Value column, the KPI stage
does not fail: total value, prior-year value, average order value and
YoY growth are all 0, and both divisions stay guarded by their
positivity tests. -/
theorem C10_missing_value_column_kpis :
    ∀ (rs working : List Record) (cy : Nat),
      totalValue false rs = 0 ∧
      prevValue false working cy = 0 ∧
      avgOrderValue false rs = 0 ∧
      yoyGrowth false rs working cy = 0 ∧
      (∀ hv : Bool, totalOrders rs = 0 → avgOrderValue hv rs = 0) ∧
      (∀ hv : Bool, ¬ 0 < prevValue hv working cy → yoyGrowth hv rs working cy = 0) := by
  intro rs working cy
  refine ⟨rfl, rfl, ?_, ?_, ?_, ?_⟩
  · simp [avgOrderValue, totalValue]
  · simp [yoyGrowth, prevValue]
  · intro hv h
    simp [avgOrderValue, h]
  · intro hv h
    rw [yoyGrowth, if_neg h]
